import Mathlib

/-!
# ESP32 LED web server: state synchronisation and page rendering

A shallow embedding of `main/main.c`.  The two module-level `int` state
variables, the NVS handle, the output pins and the trace of collaborator
calls are threaded explicitly through a `World` record.  C `int` and
`int32_t` are both 32-bit on the target, and the program performs no
arithmetic on the state values (only `!`, copies and truth tests), so they
are embedded as `Int`; every theorem quantified over `Int` covers in
particular every value a C `int` can hold.

The collaborators (GPIO driver, NVS key-value store, HTTP transport) are
outside the source file.  Each call to one of them takes its outcome
(success or failure) as an explicit input, so that the handlers can be
studied under every combination of lower-layer faults.
-/

namespace LedServer

/-! ## Basic C-level notions -/

/-- The C type `esp_err_t`. -/
abbrev esp_err_t := Int

/-- Success code of the platform. -/
def ESP_OK : esp_err_t := 0

/-- Generic failure code of the platform. -/
def ESP_FAIL : esp_err_t := -1

/-- Code returned by the store for a key without a record. -/
def ESP_ERR_NVS_NOT_FOUND : esp_err_t := 0x1102

/-- Pin number of the green channel (`#define LED_GREEN GPIO_NUM_16`). -/
def LED_GREEN : Nat := 16

/-- Pin number of the red channel (`#define LED_RED GPIO_NUM_17`). -/
def LED_RED : Nat := 17

/-- The C operator `!` on an `int`: 1 when the operand is 0, else 0. -/
def lnot (x : Int) : Int := if x = 0 then 1 else 0

/-- The libc `strcmp`, up to the sign of its result (the C standard fixes
no more): 0 exactly for equal strings. -/
def strcmp (a b : String) : Int :=
  if a = b then 0 else if a < b then -1 else 1

/-! ## The page template and its renderer -/

/-- The constant `html_template` (main.c, lines 22-34), one literal per
source line. -/
def html_template : String :=
  "<!DOCTYPE html><html><head><title>ESP32 Web Server</title>" ++
  "<style>" ++
  "body\x7btext-align:center;font-family:monospace;\x7d" ++
  ".buttonGreen\x7bbackground-color:yellowgreen;color:white;padding:16px 40px;font-size:32px;cursor:pointer;margin:10px;\x7d" ++
  ".buttonRed\x7bbackground-color:red;color:white;padding:16px 40px;font-size:32px;cursor:pointer;margin:10px;\x7d" ++
  ".status\x7bfont-size:20px;\x7d" ++
  "</style></head><body><h1>ESP32 Web Server</h1>" ++
  "<p>Green LED is currently: <span class='status'>%s</span></p>" ++
  "<p><a href=\"/green/toggle\"><button class=\"buttonGreen\">Green LED (%s)</button></a></p>" ++
  "<p>Red LED is currently: <span class='status'>%s</span></p>" ++
  "<p><a href=\"/red/toggle\"><button class=\"buttonRed\">Red LED (%s)</button></a></p>" ++
  "</body></html>"

/-- Helper `led_state_str` (main.c, lines 37-39): `state ? "ON" : "OFF"`. -/
def led_state_str (state : Int) : String :=
  if state ≠ 0 then "ON" else "OFF"

/-- Expansion of a `printf` format whose only conversion is `%s`: each
`%s` is replaced by the next argument, every other character is copied. -/
def format_s : List Char → List String → List Char
  | [], _ => []
  | [c], _ => [c]
  | c :: d :: rest, args =>
    if c = '%' ∧ d = 's' then
      match args with
      | [] => format_s rest []
      | a :: more => a.data ++ format_s rest more
    else c :: format_s (d :: rest) args

/-- The libc `snprintf(buf, size, fmt, ...)` for `%s`-only formats: the
buffer receives at most `size - 1` characters of the expansion (followed by
the terminator); the returned number is the length of the full expansion. -/
def snprintf (size : Nat) (fmt : String) (args : List String) : String × Nat :=
  let full := format_s fmt.data args
  (String.mk (full.take (size - 1)), full.length)

/-! ## Collaborators: NVS store, GPIO driver, HTTP transport -/

/-- An open NVS namespace: `entries` are the records visible through the
handle (most recent write first), `flash` the records made durable by the
last successful commit. -/
structure Nvs where
  entries : List (String × Int)
  flash : List (String × Int)
deriving DecidableEq

/-- A call made to the GPIO driver or to the store, as recorded in the
trace of a run. -/
inductive Call where
  | gpio_set_level (pin : Nat) (level : Int)
  | nvs_get_i32 (key : String)
  | nvs_set_i32 (key : String) (value : Int)
  | nvs_commit
deriving DecidableEq

/-- What the HTTP transport is handed for one request. -/
structure Response where
  status : Nat
  content_type : String
  body : String
deriving DecidableEq

/-- The request object, as far as the handlers read it. -/
structure httpd_req_t where
  uri : String
deriving DecidableEq

/-- The program state: the two module-level state variables, the NVS
handle, the level last driven onto each pin (most recent first) and the
trace of driver and store calls issued so far. -/
structure World where
  led_green_state : Int
  led_red_state : Int
  my_nvs_handle : Nvs
  pins : List (Nat × Bool)
  calls : List Call
deriving DecidableEq

/-- Outcomes of the collaborator calls one request can make: whether the
pin write, the two record writes and the commit succeed, and the code the
transport returns from sending the response. -/
structure Outcomes where
  gpio_ok : Bool
  set_green_ok : Bool
  set_red_ok : Bool
  commit_ok : Bool
  send_ret : esp_err_t
deriving DecidableEq

/-- Outcomes of the collaborator calls made at startup: the two record
reads and the two pin writes. -/
structure BootOutcomes where
  get_green_ok : Bool
  get_red_ok : Bool
  gpio_green_ok : Bool
  gpio_red_ok : Bool
deriving DecidableEq

/-- Driver call `gpio_set_level(pin, level)`: on success the pin is driven
high exactly when `level` is nonzero; on failure the pin keeps its level.
The call is recorded either way. -/
def gpio_set_level (ok : Bool) (pin : Nat) (level : Int) (w : World) : esp_err_t × World :=
  let w1 := { w with calls := w.calls ++ [Call.gpio_set_level pin level] }
  if ok then (ESP_OK, { w1 with pins := (pin, decide (level ≠ 0)) :: w1.pins })
  else (ESP_FAIL, w1)

/-- Store call `nvs_get_i32(handle, key, &out)`: returns the code and the
new content of `out`, which is written only on success. -/
def nvs_get_i32 (ok : Bool) (key : String) (out : Int) (w : World) : (esp_err_t × Int) × World :=
  let w1 := { w with calls := w.calls ++ [Call.nvs_get_i32 key] }
  if ok then
    match w.my_nvs_handle.entries.lookup key with
    | some v => ((ESP_OK, v), w1)
    | none => ((ESP_ERR_NVS_NOT_FOUND, out), w1)
  else ((ESP_FAIL, out), w1)

/-- Store call `nvs_set_i32(handle, key, value)`: on success the record
visible through the handle becomes `value`. -/
def nvs_set_i32 (ok : Bool) (key : String) (value : Int) (w : World) : esp_err_t × World :=
  let w1 := { w with calls := w.calls ++ [Call.nvs_set_i32 key value] }
  if ok then
    (ESP_OK, { w1 with my_nvs_handle :=
      { w1.my_nvs_handle with entries := (key, value) :: w1.my_nvs_handle.entries } })
  else (ESP_FAIL, w1)

/-- Store call `nvs_commit(handle)`: on success every record visible
through the handle is durable. -/
def nvs_commit (ok : Bool) (w : World) : esp_err_t × World :=
  let w1 := { w with calls := w.calls ++ [Call.nvs_commit] }
  if ok then
    (ESP_OK, { w1 with my_nvs_handle :=
      { w1.my_nvs_handle with flash := w1.my_nvs_handle.entries } })
  else (ESP_FAIL, w1)

/-! ## The functions of main.c -/

/-- Function `save_led_states_to_nvs` (main.c, lines 42-46): two record
writes and a commit, none of whose results is looked at. -/
def save_led_states_to_nvs (o : Outcomes) (w : World) : World :=
  let w1 := (nvs_set_i32 o.set_green_ok "led_green" w.led_green_state w).2
  let w2 := (nvs_set_i32 o.set_red_ok "led_red" w1.led_red_state w1).2
  (nvs_commit o.commit_ok w2).2

/-- Function `load_led_states_from_nvs` (main.c, lines 49-57): each state
variable is assigned only when the read of its record returns `ESP_OK`. -/
def load_led_states_from_nvs (b : BootOutcomes) (w : World) : World :=
  let green : Int := 0
  let red : Int := 0
  let r1 := nvs_get_i32 b.get_green_ok "led_green" green w
  let w1 := if r1.1.1 = ESP_OK then { r1.2 with led_green_state := r1.1.2 } else r1.2
  let r2 := nvs_get_i32 b.get_red_ok "led_red" red w1
  if r2.1.1 = ESP_OK then { r2.2 with led_red_state := r2.1.2 } else r2.2

/-- Function `send_html` (main.c, lines 60-68): the template is expanded
into a 1024-byte buffer and sent with content type `text/html`; the
function returns what the transport returns. -/
def send_html (send_ret : esp_err_t) (w : World) : esp_err_t × Response :=
  let html := (snprintf 1024 html_template
    [led_state_str w.led_green_state, led_state_str (lnot w.led_green_state),
     led_state_str w.led_red_state, led_state_str (lnot w.led_red_state)]).1
  (send_ret, { status := 200, content_type := "text/html", body := html })

/-- Result of running a handler: its return code, the response handed to
the transport and the program state afterwards. -/
structure Handled where
  ret : esp_err_t
  response : Response
  world : World
deriving DecidableEq

/-- Function `led_toggle_handler` (main.c, lines 71-84). -/
def led_toggle_handler (req : httpd_req_t) (o : Outcomes) (w : World) : Handled :=
  let uri := req.uri
  let w1 :=
    if strcmp uri "/green/toggle" = 0 then
      let wg := { w with led_green_state := lnot w.led_green_state }
      (gpio_set_level o.gpio_ok LED_GREEN wg.led_green_state wg).2
    else if strcmp uri "/red/toggle" = 0 then
      let wr := { w with led_red_state := lnot w.led_red_state }
      (gpio_set_level o.gpio_ok LED_RED wr.led_red_state wr).2
    else w
  let w2 := save_led_states_to_nvs o w1
  let r := send_html o.send_ret w2
  { ret := r.1, response := r.2, world := w2 }

/-- Function `root_handler` (main.c, lines 87-89). -/
def root_handler (_req : httpd_req_t) (o : Outcomes) (w : World) : Handled :=
  let r := send_html o.send_ret w
  { ret := r.1, response := r.2, world := w }

/-- Function `favicon_handler` (main.c, lines 92-94): a 404 response with
the message `No favicon`. -/
def favicon_handler (_req : httpd_req_t) (o : Outcomes) (w : World) : Handled :=
  { ret := o.send_ret,
    response := { status := 404, content_type := "text/html", body := "No favicon" },
    world := w }

/-- The three handlers registered by `start_webserver` (main.c, lines
103-115). -/
inductive Handler where
  | root
  | toggle
  | favicon
deriving DecidableEq

/-- One request as delivered by the transport: the handler it was
dispatched to, the request uri, and the outcomes of the collaborator calls
made while it is served. -/
structure Request where
  handler : Handler
  uri : String
  outcomes : Outcomes
deriving DecidableEq

/-- Serving one request with the handler it was dispatched to. -/
def serve (w : World) (r : Request) : Handled :=
  match r.handler with
  | Handler.root => root_handler { uri := r.uri } r.outcomes w
  | Handler.toggle => led_toggle_handler { uri := r.uri } r.outcomes w
  | Handler.favicon => favicon_handler { uri := r.uri } r.outcomes w

/-- Serving a sequence of requests, each run to completion before the
next. -/
def serve_all (w : World) (rs : List Request) : World :=
  rs.foldl (fun acc r => (serve acc r).world) w

/-- The state at power-up over the given durable records: both state
variables hold their static initialiser 0, the handle opened by
`nvs_open` shows exactly the durable records, no pin has been driven. -/
def power_up (flash : List (String × Int)) : World :=
  { led_green_state := 0, led_red_state := 0,
    my_nvs_handle := { entries := flash, flash := flash },
    pins := [], calls := [] }

/-- Function `app_main` (main.c, lines 152-173) up to the start of the
server: load the previous states, then drive both pins.  A failing
`nvs_open` is only logged there; the calls on the handle that then fail
are covered by the outcomes of the later calls. -/
def app_main (flash : List (String × Int)) (b : BootOutcomes) : World :=
  let w0 := power_up flash
  let w1 := load_led_states_from_nvs b w0
  let w2 := (gpio_set_level b.gpio_green_ok LED_GREEN w1.led_green_state w1).2
  (gpio_set_level b.gpio_red_ok LED_RED w2.led_red_state w2).2

/-! ## Vocabulary of the statements -/

/-- The document `html_template` describes, around its four fields: the
green status, the green button label, the red status, the red button
label. -/
def page_of (green_status green_label red_status red_label : String) : String :=
  "<!DOCTYPE html><html><head><title>ESP32 Web Server</title>" ++
  "<style>" ++
  "body\x7btext-align:center;font-family:monospace;\x7d" ++
  ".buttonGreen\x7bbackground-color:yellowgreen;color:white;padding:16px 40px;font-size:32px;cursor:pointer;margin:10px;\x7d" ++
  ".buttonRed\x7bbackground-color:red;color:white;padding:16px 40px;font-size:32px;cursor:pointer;margin:10px;\x7d" ++
  ".status\x7bfont-size:20px;\x7d" ++
  "</style></head><body><h1>ESP32 Web Server</h1>" ++
  "<p>Green LED is currently: <span class='status'>" ++ green_status ++ "</span></p>" ++
  "<p><a href=\"/green/toggle\"><button class=\"buttonGreen\">Green LED (" ++ green_label ++
    ")</button></a></p>" ++
  "<p>Red LED is currently: <span class='status'>" ++ red_status ++ "</span></p>" ++
  "<p><a href=\"/red/toggle\"><button class=\"buttonRed\">Red LED (" ++ red_label ++
    ")</button></a></p>" ++
  "</body></html>"

/-- The four strings `send_html` passes to `snprintf`, in order. -/
def html_args (w : World) : List String :=
  [led_state_str w.led_green_state, led_state_str (lnot w.led_green_state),
   led_state_str w.led_red_state, led_state_str (lnot w.led_red_state)]

/-- Outcomes of a request during which no driver or store call fails. -/
def no_faults (send_ret : esp_err_t) : Outcomes :=
  { gpio_ok := true, set_green_ok := true, set_red_ok := true, commit_ok := true,
    send_ret := send_ret }

/-- Both record writes and the commit of a request succeed. -/
def Outcomes.store_ok (o : Outcomes) : Bool :=
  o.set_green_ok && o.set_red_ok && o.commit_ok

/-- No driver or store call of a request fails. -/
def Outcomes.all_ok (o : Outcomes) : Bool :=
  o.gpio_ok && o.store_ok

/-- Both record reads at startup succeed at the call level (a record may
still be absent). -/
def BootOutcomes.reads_ok (b : BootOutcomes) : Bool :=
  b.get_green_ok && b.get_red_ok

/-- No driver or store call at startup fails. -/
def BootOutcomes.all_ok (b : BootOutcomes) : Bool :=
  b.reads_ok && b.gpio_green_ok && b.gpio_red_ok

/-- An `int` read as a boolean, the C way. -/
def truth (x : Int) : Bool := decide (x ≠ 0)

/-- The level last driven onto a pin, if any. -/
def driven (w : World) (pin : Nat) : Option Bool := w.pins.lookup pin

/-- The value last committed for a key, an absent record reading as 0. -/
def committed (w : World) (key : String) : Int :=
  (w.my_nvs_handle.flash.lookup key).getD 0

/-- For each channel, memory, pin and committed record agree as booleans. -/
def in_sync (w : World) : Prop :=
  (driven w LED_GREEN = some (truth w.led_green_state) ∧
    truth (committed w "led_green") = truth w.led_green_state) ∧
  (driven w LED_RED = some (truth w.led_red_state) ∧
    truth (committed w "led_red") = truth w.led_red_state)

instance (w : World) : Decidable (in_sync w) := by
  unfold in_sync; infer_instance

/-! ## Auxiliary facts -/

theorem lnot_ne_self (x : Int) : lnot x ≠ x := by
  unfold lnot; split_ifs with h <;> omega

theorem lnot_lnot (x : Int) : lnot (lnot x) = if x = 0 then 0 else 1 := by
  unfold lnot; split_ifs <;> simp_all

theorem strcmp_eq_zero (a b : String) : strcmp a b = 0 ↔ a = b := by
  unfold strcmp; split_ifs <;> simp_all

theorem led_state_str_lnot_lnot (x : Int) :
    led_state_str (lnot (lnot x)) = led_state_str x := by
  rw [lnot_lnot]; unfold led_state_str; split_ifs <;> simp_all

theorem toggle_green_state (uri : String) (o : Outcomes) (w : World) :
    (led_toggle_handler { uri := uri } o w).world.led_green_state =
      if uri = "/green/toggle" then lnot w.led_green_state else w.led_green_state := by
  simp only [led_toggle_handler, save_led_states_to_nvs, nvs_set_i32, nvs_commit,
    gpio_set_level, strcmp_eq_zero]
  split_ifs <;> rfl

theorem toggle_red_state (uri : String) (o : Outcomes) (w : World) :
    (led_toggle_handler { uri := uri } o w).world.led_red_state =
      if uri = "/green/toggle" then w.led_red_state
      else if uri = "/red/toggle" then lnot w.led_red_state else w.led_red_state := by
  simp only [led_toggle_handler, save_led_states_to_nvs, nvs_set_i32, nvs_commit,
    gpio_set_level, strcmp_eq_zero]
  split_ifs <;> rfl

theorem led_state_str_eq (x : Int) :
    led_state_str x = if truth x then "ON" else "OFF" := by
  unfold led_state_str truth; split_ifs <;> simp_all

theorem led_state_str_lnot (x : Int) :
    led_state_str (lnot x) = if truth x then "OFF" else "ON" := by
  unfold led_state_str lnot truth; split_ifs <;> simp_all

set_option maxRecDepth 1000000 in
theorem snprintf_template (a b : Bool) :
    snprintf 1024 html_template
        [if a then "ON" else "OFF", if a then "OFF" else "ON",
         if b then "ON" else "OFF", if b then "OFF" else "ON"] =
      (page_of (if a then "ON" else "OFF") (if a then "OFF" else "ON")
        (if b then "ON" else "OFF") (if b then "OFF" else "ON"), 703) := by
  cases a <;> cases b <;> decide

theorem snprintf_html_args (w : World) :
    snprintf 1024 html_template (html_args w) =
      (page_of (led_state_str w.led_green_state) (led_state_str (lnot w.led_green_state))
        (led_state_str w.led_red_state) (led_state_str (lnot w.led_red_state)), 703) := by
  have h := snprintf_template (truth w.led_green_state) (truth w.led_red_state)
  rw [← led_state_str_eq, ← led_state_str_lnot, ← led_state_str_eq, ← led_state_str_lnot] at h
  exact h

theorem send_html_body (send_ret : esp_err_t) (w : World) :
    (send_html send_ret w).2.body =
      page_of (led_state_str w.led_green_state) (led_state_str (lnot w.led_green_state))
        (led_state_str w.led_red_state) (led_state_str (lnot w.led_red_state)) := by
  have h := snprintf_html_args w
  unfold send_html
  exact congrArg Prod.fst h

theorem truth_lnot (x : Int) : truth (lnot x) = !truth x := by
  unfold truth lnot; split_ifs <;> simp_all

/-- The page as a function of the two channels read as booleans. -/
def page_b (a b : Bool) : String :=
  page_of (if a then "ON" else "OFF") (if a then "OFF" else "ON")
    (if b then "ON" else "OFF") (if b then "OFF" else "ON")

theorem send_html_body_b (send_ret : esp_err_t) (w : World) :
    (send_html send_ret w).2.body = page_b (truth w.led_green_state) (truth w.led_red_state) := by
  rw [send_html_body, led_state_str_lnot, led_state_str_lnot, led_state_str_eq,
    led_state_str_eq, page_b]

set_option maxRecDepth 1000000 in
theorem page_b_inj (a b c d : Bool) (h : page_b a b = page_b c d) : a = c ∧ b = d := by
  revert h
  cases a <;> cases b <;> cases c <;> cases d <;> decide

theorem toggle_response (uri : String) (o : Outcomes) (w : World) :
    (led_toggle_handler { uri := uri } o w).response =
      (send_html o.send_ret (led_toggle_handler { uri := uri } o w).world).2 := rfl

theorem toggle_body (uri : String) (o : Outcomes) (w : World) :
    (led_toggle_handler { uri := uri } o w).response.body =
      page_b (truth (led_toggle_handler { uri := uri } o w).world.led_green_state)
        (truth (led_toggle_handler { uri := uri } o w).world.led_red_state) := by
  rw [toggle_response, send_html_body_b]

theorem double_toggle_green (w : World) (o1 o2 : Outcomes) :
    (led_toggle_handler { uri := "/green/toggle" } o2
      (led_toggle_handler { uri := "/green/toggle" } o1 w).world).world.led_green_state
      = lnot (lnot w.led_green_state) := by
  simp [toggle_green_state]

theorem double_toggle_red (w : World) (o1 o2 : Outcomes) :
    (led_toggle_handler { uri := "/red/toggle" } o2
      (led_toggle_handler { uri := "/red/toggle" } o1 w).world).world.led_red_state
      = lnot (lnot w.led_red_state) := by
  simp [toggle_red_state]

theorem nvs_get_i32_code (ok : Bool) (key : String) (out : Int) (w : World) :
    (nvs_get_i32 ok key out w).1 =
      if ok then
        match w.my_nvs_handle.entries.lookup key with
        | some v => (ESP_OK, v)
        | none => (ESP_ERR_NVS_NOT_FOUND, out)
      else (ESP_FAIL, out) := by
  unfold nvs_get_i32
  cases ok
  · rfl
  · cases w.my_nvs_handle.entries.lookup key <;> rfl

theorem nvs_get_i32_world (ok : Bool) (key : String) (out : Int) (w : World) :
    (nvs_get_i32 ok key out w).2 = { w with calls := w.calls ++ [Call.nvs_get_i32 key] } := by
  unfold nvs_get_i32
  cases ok
  · rfl
  · cases w.my_nvs_handle.entries.lookup key <;> rfl

theorem load_green_state (b : BootOutcomes) (w : World) :
    (load_led_states_from_nvs b w).led_green_state =
      if (nvs_get_i32 b.get_green_ok "led_green" 0 w).1.1 = ESP_OK
      then (nvs_get_i32 b.get_green_ok "led_green" 0 w).1.2 else w.led_green_state := by
  simp only [load_led_states_from_nvs, nvs_get_i32_world]
  split_ifs <;> rfl

theorem load_red_state (b : BootOutcomes) (w : World) :
    (load_led_states_from_nvs b w).led_red_state =
      if (nvs_get_i32 b.get_red_ok "led_red" 0 w).1.1 = ESP_OK
      then (nvs_get_i32 b.get_red_ok "led_red" 0 w).1.2 else w.led_red_state := by
  simp only [load_led_states_from_nvs, nvs_get_i32_world, nvs_get_i32_code]
  split_ifs <;> rfl

theorem send_html_congr (send_ret : esp_err_t) (w1 w2 : World)
    (hg : w1.led_green_state = w2.led_green_state)
    (hr : w1.led_red_state = w2.led_red_state) :
    send_html send_ret w1 = send_html send_ret w2 := by
  unfold send_html; rw [hg, hr]

theorem toggle_calls (uri : String) (o : Outcomes) (w : World) :
    (led_toggle_handler { uri := uri } o w).world.calls =
      (if uri = "/green/toggle" then
          w.calls ++ [Call.gpio_set_level LED_GREEN (lnot w.led_green_state)]
        else if uri = "/red/toggle" then
          w.calls ++ [Call.gpio_set_level LED_RED (lnot w.led_red_state)]
        else w.calls) ++
      [Call.nvs_set_i32 "led_green" (led_toggle_handler { uri := uri } o w).world.led_green_state,
        Call.nvs_set_i32 "led_red" (led_toggle_handler { uri := uri } o w).world.led_red_state,
        Call.nvs_commit] := by
  rw [toggle_green_state, toggle_red_state]
  simp only [led_toggle_handler, save_led_states_to_nvs, nvs_set_i32, nvs_commit,
    gpio_set_level, strcmp_eq_zero]
  split_ifs <;> simp

theorem toggle_pins (uri : String) (o : Outcomes) (w : World) (ho : o.gpio_ok = true) :
    (led_toggle_handler { uri := uri } o w).world.pins =
      if uri = "/green/toggle" then (LED_GREEN, truth (lnot w.led_green_state)) :: w.pins
      else if uri = "/red/toggle" then (LED_RED, truth (lnot w.led_red_state)) :: w.pins
      else w.pins := by
  simp only [led_toggle_handler, save_led_states_to_nvs, nvs_set_i32, nvs_commit,
    gpio_set_level, strcmp_eq_zero, ho, truth]
  split_ifs <;> rfl

theorem toggle_flash (uri : String) (o : Outcomes) (w : World) (ho : o.store_ok = true) :
    (led_toggle_handler { uri := uri } o w).world.my_nvs_handle.flash =
      ("led_red", (led_toggle_handler { uri := uri } o w).world.led_red_state) ::
      ("led_green", (led_toggle_handler { uri := uri } o w).world.led_green_state) ::
      w.my_nvs_handle.entries := by
  simp only [Outcomes.store_ok, Bool.and_eq_true] at ho
  obtain ⟨⟨h1, h2⟩, h3⟩ := ho
  rw [toggle_green_state, toggle_red_state]
  simp only [led_toggle_handler, save_led_states_to_nvs, nvs_set_i32, nvs_commit,
    gpio_set_level, strcmp_eq_zero, h1, h2, h3]
  split_ifs <;> rfl

theorem toggle_committed (uri : String) (o : Outcomes) (w : World) (ho : o.store_ok = true) :
    (led_toggle_handler { uri := uri } o w).world.my_nvs_handle.flash.lookup "led_green" =
      some (led_toggle_handler { uri := uri } o w).world.led_green_state ∧
    (led_toggle_handler { uri := uri } o w).world.my_nvs_handle.flash.lookup "led_red" =
      some (led_toggle_handler { uri := uri } o w).world.led_red_state := by
  rw [toggle_flash uri o w ho]
  constructor
  · rw [List.lookup_cons, List.lookup_cons]
    have h1 : ("led_green" == "led_red") = false := by decide
    have h2 : ("led_green" == "led_green") = true := by decide
    rw [h1, h2]
  · rw [List.lookup_cons]
    have h2 : ("led_red" == "led_red") = true := by decide
    rw [h2]

theorem serve_all_concat (w : World) (rs : List Request) (r : Request) :
    serve_all w (rs ++ [r]) = (serve (serve_all w rs) r).world := by
  simp [serve_all, List.foldl_append]

theorem load_from_flash (b : BootOutcomes) (flash : List (String × Int)) (g r : Int)
    (hb : b.reads_ok = true)
    (hg : flash.lookup "led_green" = some g) (hr : flash.lookup "led_red" = some r) :
    (load_led_states_from_nvs b (power_up flash)).led_green_state = g ∧
    (load_led_states_from_nvs b (power_up flash)).led_red_state = r := by
  simp only [BootOutcomes.reads_ok, Bool.and_eq_true] at hb
  rw [load_green_state, load_red_state, nvs_get_i32_code, nvs_get_i32_code, hb.1, hb.2]
  simp only [power_up, hg, hr]
  simp

theorem gpio_set_level_world (ok : Bool) (pin : Nat) (level : Int) (w : World) :
    (gpio_set_level ok pin level w).2 =
      { w with calls := w.calls ++ [Call.gpio_set_level pin level],
               pins := if ok then (pin, truth level) :: w.pins else w.pins } := by
  cases ok <;> rfl

theorem load_frame (b : BootOutcomes) (w : World) :
    (load_led_states_from_nvs b w).my_nvs_handle = w.my_nvs_handle ∧
    (load_led_states_from_nvs b w).pins = w.pins := by
  simp only [load_led_states_from_nvs, nvs_get_i32_world]
  split_ifs <;> exact ⟨rfl, rfl⟩

theorem load_power_up (b : BootOutcomes) (flash : List (String × Int))
    (hb : b.reads_ok = true) :
    (load_led_states_from_nvs b (power_up flash)).led_green_state =
      (flash.lookup "led_green").getD 0 ∧
    (load_led_states_from_nvs b (power_up flash)).led_red_state =
      (flash.lookup "led_red").getD 0 := by
  simp only [BootOutcomes.reads_ok, Bool.and_eq_true] at hb
  rw [load_green_state, load_red_state, nvs_get_i32_code, nvs_get_i32_code, hb.1, hb.2]
  simp only [power_up]
  constructor
  · cases flash.lookup "led_green" <;> simp [ESP_OK, ESP_ERR_NVS_NOT_FOUND]
  · cases flash.lookup "led_red" <;> simp [ESP_OK, ESP_ERR_NVS_NOT_FOUND]

theorem in_sync_app_main (flash : List (String × Int)) (b : BootOutcomes)
    (hb : b.all_ok = true) : in_sync (app_main flash b) := by
  simp only [BootOutcomes.all_ok, Bool.and_eq_true] at hb
  obtain ⟨⟨h1, h3⟩, h4⟩ := hb
  obtain ⟨hg, hr⟩ := load_power_up b flash h1
  obtain ⟨hn, hp⟩ := load_frame b (power_up flash)
  simp only [in_sync, driven, committed, app_main, gpio_set_level_world, h3, h4, if_true,
    hg, hr, hn, hp]
  simp [List.lookup, LED_GREEN, LED_RED, power_up]

theorem in_sync_serve (w : World) (r : Request) (hw : in_sync w)
    (hr : r.outcomes.all_ok = true) : in_sync (serve w r).world := by
  obtain ⟨h, uri, o⟩ := r
  cases h
  · exact hw
  · simp only [Outcomes.all_ok, Bool.and_eq_true] at hr
    obtain ⟨hgp, hst⟩ := hr
    obtain ⟨hcg, hcr⟩ := toggle_committed uri o w hst
    obtain ⟨⟨hpg, _⟩, ⟨hpr, _⟩⟩ := hw
    simp only [driven] at hpg hpr
    simp only [in_sync, driven, committed, serve, hcg, hcr, Option.getD_some,
      toggle_pins uri o w hgp, toggle_green_state, toggle_red_state, and_true]
    split_ifs <;> simp [List.lookup, LED_GREEN, LED_RED, hpg, hpr] <;>
      simp_all [LED_GREEN, LED_RED]
  · exact hw

theorem in_sync_serve_all (rs : List Request) (w : World) (hw : in_sync w)
    (hrs : ∀ r ∈ rs, r.outcomes.all_ok = true) : in_sync (serve_all w rs) := by
  induction rs generalizing w with
  | nil => exact hw
  | cons r rest ih =>
    have h1 := in_sync_serve w r hw (hrs r (by simp))
    exact ih (serve w r).world h1 (fun q hq => hrs q (by simp [hq]))

/-! ## Claims -/

/-- C1: for every prior state, `led_toggle_handler` with uri `/green/toggle`
leaves the green state different from its prior value and the red state
unchanged; with uri `/red/toggle` it changes the red state and leaves the
green state unchanged. -/
theorem toggle_inverts_exactly_one_channel (w : World) (o : Outcomes) :
    ((led_toggle_handler { uri := "/green/toggle" } o w).world.led_green_state
        ≠ w.led_green_state ∧
      (led_toggle_handler { uri := "/green/toggle" } o w).world.led_red_state
        = w.led_red_state) ∧
    ((led_toggle_handler { uri := "/red/toggle" } o w).world.led_red_state
        ≠ w.led_red_state ∧
      (led_toggle_handler { uri := "/red/toggle" } o w).world.led_green_state
        = w.led_green_state) := by
  rw [toggle_green_state, toggle_red_state, toggle_green_state, toggle_red_state]
  simp [lnot_ne_self]

/-- C2: for every prior state and each toggle path, the body returned by
`led_toggle_handler` is the page rendered from the state after the toggle
and differs from the page of the state before it: the toggled channel's
status field shows its new value and its button label shows the old one.
From both channels off, the root page shows green status OFF with label
ON, and the page of a following `/green/toggle` shows green status ON with
label OFF. -/
theorem toggle_page_reflects_flip (w : World) (o : Outcomes) :
    ((led_toggle_handler { uri := "/green/toggle" } o w).response =
        (send_html o.send_ret (led_toggle_handler { uri := "/green/toggle" } o w).world).2 ∧
      (led_toggle_handler { uri := "/green/toggle" } o w).response.body =
        page_of
          (led_state_str (led_toggle_handler { uri := "/green/toggle" } o w).world.led_green_state)
          (led_state_str w.led_green_state)
          (led_state_str w.led_red_state) (led_state_str (lnot w.led_red_state)) ∧
      (led_toggle_handler { uri := "/green/toggle" } o w).response.body ≠
        (send_html o.send_ret w).2.body) ∧
    ((led_toggle_handler { uri := "/red/toggle" } o w).response =
        (send_html o.send_ret (led_toggle_handler { uri := "/red/toggle" } o w).world).2 ∧
      (led_toggle_handler { uri := "/red/toggle" } o w).response.body =
        page_of
          (led_state_str w.led_green_state) (led_state_str (lnot w.led_green_state))
          (led_state_str (led_toggle_handler { uri := "/red/toggle" } o w).world.led_red_state)
          (led_state_str w.led_red_state) ∧
      (led_toggle_handler { uri := "/red/toggle" } o w).response.body ≠
        (send_html o.send_ret w).2.body) ∧
    ((root_handler { uri := "/" } o
          { w with led_green_state := 0, led_red_state := 0 }).response.body =
        page_of "OFF" "ON" "OFF" "ON" ∧
      (led_toggle_handler { uri := "/green/toggle" } o
          (root_handler { uri := "/" } o
            { w with led_green_state := 0, led_red_state := 0 }).world).response.body =
        page_of "ON" "OFF" "OFF" "ON") := by
  refine ⟨⟨rfl, ?_, ?_⟩, ⟨rfl, ?_, ?_⟩, ?_, ?_⟩
  · rw [toggle_response, send_html_body, toggle_green_state, toggle_red_state]
    simp [led_state_str_lnot_lnot]
  · rw [toggle_body, send_html_body_b, toggle_green_state, toggle_red_state]
    intro h
    have h1 := (page_b_inj _ _ _ _ h).1
    simp [truth_lnot] at h1
  · rw [toggle_response, send_html_body, toggle_green_state, toggle_red_state]
    simp [led_state_str_lnot_lnot]
  · rw [toggle_body, send_html_body_b, toggle_green_state, toggle_red_state]
    intro h
    have h1 := (page_b_inj _ _ _ _ h).2
    simp [truth_lnot] at h1
  · show (send_html o.send_ret _).2.body = _
    rw [send_html_body]
    simp [led_state_str, lnot]
  · rw [toggle_response, send_html_body, toggle_green_state, toggle_red_state]
    simp [led_state_str, lnot, root_handler]

/-- C5 (as stated, refuted): from the state seeded at startup by a green
record holding 2, two consecutive `/green/toggle` requests leave the green
state at 1, not at its original value 2. -/
theorem double_toggle_not_identity_on_two :
    (app_main [("led_green", 2)] ⟨true, true, true, true⟩).led_green_state = 2 ∧
    (led_toggle_handler { uri := "/green/toggle" } (no_faults ESP_OK)
      (led_toggle_handler { uri := "/green/toggle" } (no_faults ESP_OK)
        (app_main [("led_green", 2)] ⟨true, true, true, true⟩)).world).world.led_green_state
      = 1 ∧
    (led_toggle_handler { uri := "/green/toggle" } (no_faults ESP_OK)
      (led_toggle_handler { uri := "/green/toggle" } (no_faults ESP_OK)
        (app_main [("led_green", 2)] ⟨true, true, true, true⟩)).world).world.led_green_state
      ≠ (app_main [("led_green", 2)] ⟨true, true, true, true⟩).led_green_state := by
  decide

/-- C5 (amended): two consecutive toggle requests for a channel leave the
channel's in-memory value at 0 when it was 0 and at 1 when it was anything
else.  Hence they restore the original value whenever that value is 0 or
1, and for every other value they restore it only as a boolean: the result
is 1, with the same truth value and the same status text as the original. -/
theorem double_toggle_restores (w : World) (o1 o2 : Outcomes) :
    ((led_toggle_handler { uri := "/green/toggle" } o2
          (led_toggle_handler { uri := "/green/toggle" } o1 w).world).world.led_green_state
          = (if w.led_green_state = 0 then 0 else 1) ∧
      (w.led_green_state = 0 ∨ w.led_green_state = 1 →
        (led_toggle_handler { uri := "/green/toggle" } o2
          (led_toggle_handler { uri := "/green/toggle" } o1 w).world).world.led_green_state
          = w.led_green_state) ∧
      (w.led_green_state ≠ 0 ∧ w.led_green_state ≠ 1 →
        (led_toggle_handler { uri := "/green/toggle" } o2
          (led_toggle_handler { uri := "/green/toggle" } o1 w).world).world.led_green_state
          = 1) ∧
      truth (led_toggle_handler { uri := "/green/toggle" } o2
          (led_toggle_handler { uri := "/green/toggle" } o1 w).world).world.led_green_state
          = truth w.led_green_state ∧
      led_state_str (led_toggle_handler { uri := "/green/toggle" } o2
          (led_toggle_handler { uri := "/green/toggle" } o1 w).world).world.led_green_state
          = led_state_str w.led_green_state) ∧
    ((led_toggle_handler { uri := "/red/toggle" } o2
          (led_toggle_handler { uri := "/red/toggle" } o1 w).world).world.led_red_state
          = (if w.led_red_state = 0 then 0 else 1) ∧
      (w.led_red_state = 0 ∨ w.led_red_state = 1 →
        (led_toggle_handler { uri := "/red/toggle" } o2
          (led_toggle_handler { uri := "/red/toggle" } o1 w).world).world.led_red_state
          = w.led_red_state) ∧
      (w.led_red_state ≠ 0 ∧ w.led_red_state ≠ 1 →
        (led_toggle_handler { uri := "/red/toggle" } o2
          (led_toggle_handler { uri := "/red/toggle" } o1 w).world).world.led_red_state
          = 1) ∧
      truth (led_toggle_handler { uri := "/red/toggle" } o2
          (led_toggle_handler { uri := "/red/toggle" } o1 w).world).world.led_red_state
          = truth w.led_red_state ∧
      led_state_str (led_toggle_handler { uri := "/red/toggle" } o2
          (led_toggle_handler { uri := "/red/toggle" } o1 w).world).world.led_red_state
          = led_state_str w.led_red_state) := by
  rw [double_toggle_green, double_toggle_red]
  refine ⟨⟨lnot_lnot _, ?_, ?_, ?_, led_state_str_lnot_lnot _⟩,
    ⟨lnot_lnot _, ?_, ?_, ?_, led_state_str_lnot_lnot _⟩⟩
  · rintro (h | h) <;> simp [h, lnot]
  · rintro ⟨h, _⟩; rw [lnot_lnot, if_neg h]
  · simp [truth_lnot]
  · rintro (h | h) <;> simp [h, lnot]
  · rintro ⟨h, _⟩; rw [lnot_lnot, if_neg h]
  · simp [truth_lnot]

/-- Witness for C5 (amended): the green state 1 is restored by two green
toggles, and the red state 3, neither 0 nor 1, ends at 1. -/
theorem double_toggle_restores_witness :
    (((1 : Int) = 0 ∨ (1 : Int) = 1) ∧ ((3 : Int) ≠ 0 ∧ (3 : Int) ≠ 1)) ∧
    (led_toggle_handler { uri := "/green/toggle" } (no_faults ESP_OK)
      (led_toggle_handler { uri := "/green/toggle" } (no_faults ESP_OK)
        { power_up [] with led_green_state := 1, led_red_state := 3 }
        ).world).world.led_green_state = 1 ∧
    (led_toggle_handler { uri := "/red/toggle" } (no_faults ESP_OK)
      (led_toggle_handler { uri := "/red/toggle" } (no_faults ESP_OK)
        { power_up [] with led_green_state := 1, led_red_state := 3 }
        ).world).world.led_red_state = 1 :=
  ⟨by decide,
   (double_toggle_restores { power_up [] with led_green_state := 1, led_red_state := 3 }
      (no_faults ESP_OK) (no_faults ESP_OK)).1.2.1 (by decide),
   (double_toggle_restores { power_up [] with led_green_state := 1, led_red_state := 3 }
      (no_faults ESP_OK) (no_faults ESP_OK)).2.2.2.1 (by decide)⟩

/-- C6: for every state, the page produced by `send_html` carries, for each
channel, a status and a button label that are each `ON` or `OFF`, the
label being `ON` exactly when the status is `OFF`. -/
theorem button_label_negates_status (send_ret : esp_err_t) (w : World) :
    (send_html send_ret w).2.body =
      page_of (led_state_str w.led_green_state) (led_state_str (lnot w.led_green_state))
        (led_state_str w.led_red_state) (led_state_str (lnot w.led_red_state)) ∧
    ((led_state_str w.led_green_state = "ON" ∨ led_state_str w.led_green_state = "OFF") ∧
      (led_state_str (lnot w.led_green_state) = "ON" ∨
        led_state_str (lnot w.led_green_state) = "OFF") ∧
      (led_state_str (lnot w.led_green_state) = "ON" ↔
        led_state_str w.led_green_state = "OFF")) ∧
    ((led_state_str w.led_red_state = "ON" ∨ led_state_str w.led_red_state = "OFF") ∧
      (led_state_str (lnot w.led_red_state) = "ON" ∨
        led_state_str (lnot w.led_red_state) = "OFF") ∧
      (led_state_str (lnot w.led_red_state) = "ON" ↔
        led_state_str w.led_red_state = "OFF")) := by
  refine ⟨send_html_body send_ret w, ?_, ?_⟩
  · rw [led_state_str_lnot, led_state_str_eq]
    cases truth w.led_green_state <;> decide
  · rw [led_state_str_lnot, led_state_str_eq]
    cases truth w.led_red_state <;> decide

/-- C8: for every request uri other than the two toggle paths and every
prior state, whichever handler serves the request, both state variables
are the same after the request as before it. -/
theorem other_paths_leave_state (w : World) (h : Handler) (uri : String) (o : Outcomes)
    (hg : uri ≠ "/green/toggle") (hr : uri ≠ "/red/toggle") :
    (serve w { handler := h, uri := uri, outcomes := o }).world.led_green_state
        = w.led_green_state ∧
    (serve w { handler := h, uri := uri, outcomes := o }).world.led_red_state
        = w.led_red_state := by
  cases h
  · exact ⟨rfl, rfl⟩
  · simp only [serve, toggle_green_state, toggle_red_state, if_neg hg, if_neg hr, and_self]
  · exact ⟨rfl, rfl⟩

/-- Witness for C8: the toggle handler reached with a query string after
the green toggle path. -/
theorem other_paths_leave_state_witness :
    ("/green/toggle?x=1" ≠ "/green/toggle" ∧ "/green/toggle?x=1" ≠ "/red/toggle") ∧
    (serve (power_up [])
        { handler := Handler.toggle, uri := "/green/toggle?x=1",
          outcomes := no_faults ESP_OK }).world.led_green_state = (power_up []).led_green_state ∧
    (serve (power_up [])
        { handler := Handler.toggle, uri := "/green/toggle?x=1",
          outcomes := no_faults ESP_OK }).world.led_red_state = (power_up []).led_red_state :=
  ⟨by decide,
   other_paths_leave_state (power_up []) Handler.toggle "/green/toggle?x=1"
     (no_faults ESP_OK) (by decide) (by decide)⟩

/-- C7: for every store in which the read of a channel's record does not
return `ESP_OK` (record absent or unreadable), `load_led_states_from_nvs`
run at startup leaves that channel's in-memory state at 0, whatever the
other channel's record is. -/
theorem missing_record_defaults_off (flash : List (String × Int)) (b : BootOutcomes) :
    ((nvs_get_i32 b.get_green_ok "led_green" 0 (power_up flash)).1.1 ≠ ESP_OK →
      (load_led_states_from_nvs b (power_up flash)).led_green_state = 0) ∧
    ((nvs_get_i32 b.get_red_ok "led_red" 0 (power_up flash)).1.1 ≠ ESP_OK →
      (load_led_states_from_nvs b (power_up flash)).led_red_state = 0) := by
  rw [load_green_state, load_red_state]
  constructor
  · intro h; rw [if_neg h]; rfl
  · intro h; rw [if_neg h]; rfl

/-- Witness for C7: the green record is absent while the red record is
present and holds 1. -/
theorem missing_record_defaults_off_witness :
    (nvs_get_i32 true "led_green" 0 (power_up [("led_red", 1)])).1.1 ≠ ESP_OK ∧
    (load_led_states_from_nvs ⟨true, true, true, true⟩
      (power_up [("led_red", 1)])).led_green_state = 0 :=
  ⟨by decide,
   (missing_record_defaults_off [("led_red", 1)] ⟨true, true, true, true⟩).1 (by decide)⟩

/-- C9: for every state, the expansion of `html_template` with the four
strings of `send_html` is at most 1023 characters long, so the 1024-byte
`snprintf` does not truncate: the body sent is the whole expansion and
ends in the closing tags of the document. -/
theorem page_fits_buffer (send_ret : esp_err_t) (w : World) :
    (format_s html_template.data (html_args w)).length ≤ 1023 ∧
    (snprintf 1024 html_template (html_args w)).2 < 1024 ∧
    (send_html send_ret w).2.body = String.mk (format_s html_template.data (html_args w)) ∧
    "</body></html>".data <:+ (send_html send_ret w).2.body.data := by
  have h := snprintf_html_args w
  have hlen : (format_s html_template.data (html_args w)).length = 703 :=
    congrArg Prod.snd h
  have hbody : (send_html send_ret w).2.body = (snprintf 1024 html_template (html_args w)).1 :=
    rfl
  refine ⟨by omega, ?_, ?_, ?_⟩
  · show (format_s html_template.data (html_args w)).length < 1024
    omega
  · rw [hbody]
    show String.mk ((format_s html_template.data (html_args w)).take (1024 - 1)) = _
    rw [List.take_of_length_le (by omega)]
  · rw [send_html_body]
    unfold page_of
    rw [String.data_append]
    exact List.suffix_append _ _

/-- C10: for every prior state, every uri and every combination of
outcomes of the pin write, the two record writes and the commit,
`led_toggle_handler` ends with the same in-memory state, the same response
and the same sequence of driver and store calls as the run without faults;
the calls end with both record writes and the commit, and the code
returned is the one the transport returned, not that of a lower layer. -/
theorem faults_do_not_alter_toggle (uri : String) (o : Outcomes) (w : World) :
    (led_toggle_handler { uri := uri } o w).world.led_green_state =
      (led_toggle_handler { uri := uri } (no_faults o.send_ret) w).world.led_green_state ∧
    (led_toggle_handler { uri := uri } o w).world.led_red_state =
      (led_toggle_handler { uri := uri } (no_faults o.send_ret) w).world.led_red_state ∧
    (led_toggle_handler { uri := uri } o w).response =
      (led_toggle_handler { uri := uri } (no_faults o.send_ret) w).response ∧
    (led_toggle_handler { uri := uri } o w).world.calls =
      (led_toggle_handler { uri := uri } (no_faults o.send_ret) w).world.calls ∧
    [Call.nvs_set_i32 "led_green" (led_toggle_handler { uri := uri } o w).world.led_green_state,
      Call.nvs_set_i32 "led_red" (led_toggle_handler { uri := uri } o w).world.led_red_state,
      Call.nvs_commit] <:+ (led_toggle_handler { uri := uri } o w).world.calls ∧
    (led_toggle_handler { uri := uri } o w).ret = o.send_ret := by
  have hg : (led_toggle_handler { uri := uri } o w).world.led_green_state =
      (led_toggle_handler { uri := uri } (no_faults o.send_ret) w).world.led_green_state := by
    rw [toggle_green_state, toggle_green_state]
  have hr : (led_toggle_handler { uri := uri } o w).world.led_red_state =
      (led_toggle_handler { uri := uri } (no_faults o.send_ret) w).world.led_red_state := by
    rw [toggle_red_state, toggle_red_state]
  refine ⟨hg, hr, ?_, ?_, ?_, rfl⟩
  · rw [toggle_response, toggle_response]
    exact congrArg Prod.snd (send_html_congr o.send_ret _ _ hg hr)
  · rw [toggle_calls, toggle_calls, hg, hr]
  · rw [toggle_calls uri o w]
    exact List.suffix_append _ _

/-- C3: over a store whose record writes and commits succeed, after any
non-empty sequence of requests served by `led_toggle_handler` from any
state, `load_led_states_from_nvs` run on the zero-initialised state over the
committed records reproduces exactly the green and red states held after
the last request; in particular, after `/green/toggle` from both channels
off the committed `led_green` record reads 1. -/
theorem persistence_round_trip (w : World) (rs : List Request) (b : BootOutcomes)
    (o : Outcomes) (hne : rs ≠ [])
    (hrs : ∀ r ∈ rs, r.handler = Handler.toggle ∧ r.outcomes.store_ok = true)
    (hb : b.reads_ok = true) (ho : o.store_ok = true) :
    (load_led_states_from_nvs b
        (power_up (serve_all w rs).my_nvs_handle.flash)).led_green_state
      = (serve_all w rs).led_green_state ∧
    (load_led_states_from_nvs b
        (power_up (serve_all w rs).my_nvs_handle.flash)).led_red_state
      = (serve_all w rs).led_red_state ∧
    (nvs_get_i32 true "led_green" 0
        (power_up (led_toggle_handler { uri := "/green/toggle" } o
          { w with led_green_state := 0, led_red_state := 0 }).world.my_nvs_handle.flash)).1
      = (ESP_OK, 1) := by
  have hround : ∀ (x : World) (q : Request), q.handler = Handler.toggle →
      q.outcomes.store_ok = true →
      (serve x q).world.my_nvs_handle.flash.lookup "led_green" =
          some (serve x q).world.led_green_state ∧
        (serve x q).world.my_nvs_handle.flash.lookup "led_red" =
          some (serve x q).world.led_red_state := by
    intro x q hq hs
    have : serve x q = led_toggle_handler { uri := q.uri } q.outcomes x := by
      unfold serve; rw [hq]
    rw [this]
    exact toggle_committed q.uri q.outcomes x hs
  rcases List.eq_nil_or_concat rs with h | ⟨init, q, h⟩
  · exact absurd h hne
  · subst h
    have hq := hrs q (by simp)
    rw [List.concat_eq_append, serve_all_concat]
    obtain ⟨h1, h2⟩ := hround (serve_all w init) q hq.1 hq.2
    obtain ⟨h3, h4⟩ := load_from_flash b _ _ _ hb h1 h2
    refine ⟨h3, h4, ?_⟩
    rw [nvs_get_i32_code]
    have h5 := (toggle_committed "/green/toggle" o
      { w with led_green_state := 0, led_red_state := 0 } ho).1
    rw [toggle_green_state] at h5
    simp only [power_up, h5]
    simp [lnot]

/-- Witness for C3: a green toggle followed by a red toggle from the
power-up state over an empty store. -/
theorem persistence_round_trip_witness :
    ([(⟨Handler.toggle, "/green/toggle", no_faults ESP_OK⟩ : Request),
        ⟨Handler.toggle, "/red/toggle", no_faults ESP_OK⟩] ≠ [] ∧
      (∀ r ∈ [(⟨Handler.toggle, "/green/toggle", no_faults ESP_OK⟩ : Request),
          ⟨Handler.toggle, "/red/toggle", no_faults ESP_OK⟩],
        r.handler = Handler.toggle ∧ r.outcomes.store_ok = true) ∧
      (⟨true, true, true, true⟩ : BootOutcomes).reads_ok = true ∧
      (no_faults ESP_OK).store_ok = true) ∧
    ((load_led_states_from_nvs ⟨true, true, true, true⟩
        (power_up (serve_all (power_up [])
          [⟨Handler.toggle, "/green/toggle", no_faults ESP_OK⟩,
            ⟨Handler.toggle, "/red/toggle", no_faults ESP_OK⟩]).my_nvs_handle.flash)
        ).led_green_state
      = (serve_all (power_up [])
          [⟨Handler.toggle, "/green/toggle", no_faults ESP_OK⟩,
            ⟨Handler.toggle, "/red/toggle", no_faults ESP_OK⟩]).led_green_state ∧
    (load_led_states_from_nvs ⟨true, true, true, true⟩
        (power_up (serve_all (power_up [])
          [⟨Handler.toggle, "/green/toggle", no_faults ESP_OK⟩,
            ⟨Handler.toggle, "/red/toggle", no_faults ESP_OK⟩]).my_nvs_handle.flash)
        ).led_red_state
      = (serve_all (power_up [])
          [⟨Handler.toggle, "/green/toggle", no_faults ESP_OK⟩,
            ⟨Handler.toggle, "/red/toggle", no_faults ESP_OK⟩]).led_red_state ∧
    (nvs_get_i32 true "led_green" 0
        (power_up (led_toggle_handler { uri := "/green/toggle" } (no_faults ESP_OK)
          { power_up [] with led_green_state := 0, led_red_state := 0 }
          ).world.my_nvs_handle.flash)).1
      = (ESP_OK, 1)) :=
  ⟨by decide,
   persistence_round_trip (power_up [])
     [⟨Handler.toggle, "/green/toggle", no_faults ESP_OK⟩,
       ⟨Handler.toggle, "/red/toggle", no_faults ESP_OK⟩]
     ⟨true, true, true, true⟩ (no_faults ESP_OK)
     (by decide) (by decide) (by decide) (by decide)⟩

/-- C4: in every state reached from startup (`app_main`: load from the
store, then drive both pins) by any sequence of requests to the root,
favicon and toggle handlers, no driver or store call failing, for each
channel the in-memory value, the level last driven onto its pin and the
value last committed for it (an absent record reading as 0) agree as
booleans. -/
theorem memory_pin_store_agree (flash : List (String × Int)) (b : BootOutcomes)
    (rs : List Request) (hb : b.all_ok = true)
    (hrs : ∀ r ∈ rs, r.outcomes.all_ok = true) :
    in_sync (serve_all (app_main flash b) rs) :=
  in_sync_serve_all rs (app_main flash b) (in_sync_app_main flash b hb) hrs

/-- Witness for C4: startup over a store holding only a red record, then a
root request, a green toggle and a favicon request. -/
theorem memory_pin_store_agree_witness :
    ((⟨true, true, true, true⟩ : BootOutcomes).all_ok = true ∧
      (∀ r ∈ [(⟨Handler.root, "/", no_faults ESP_OK⟩ : Request),
          ⟨Handler.toggle, "/green/toggle", no_faults ESP_OK⟩,
          ⟨Handler.favicon, "/favicon.ico", no_faults ESP_OK⟩],
        r.outcomes.all_ok = true)) ∧
    in_sync (serve_all (app_main [("led_red", 1)] ⟨true, true, true, true⟩)
      [⟨Handler.root, "/", no_faults ESP_OK⟩,
        ⟨Handler.toggle, "/green/toggle", no_faults ESP_OK⟩,
        ⟨Handler.favicon, "/favicon.ico", no_faults ESP_OK⟩]) :=
  ⟨by decide,
   memory_pin_store_agree [("led_red", 1)] ⟨true, true, true, true⟩
     [⟨Handler.root, "/", no_faults ESP_OK⟩,
       ⟨Handler.toggle, "/green/toggle", no_faults ESP_OK⟩,
       ⟨Handler.favicon, "/favicon.ico", no_faults ESP_OK⟩]
     (by decide) (by decide)⟩

end LedServer
